import Mathlib

set_option maxHeartbeats 1000000

/-
Shallow embedding of the OTA update core of close2/ota-common
(src/src/esp8266/esp_updater.c).  The persistent rboot boot config, the
update HAL context and the flash are modelled explicitly; external
primitives that live outside this repository (rboot_set_config, the esp
flash writer, filesystem mount/merge, the flash-params read) are modelled
from the spec with explicit success oracles and a log of persisted
configs.
-/

def BOOT_F_MERGE_FS : Nat := 1

/-- The rboot boot configuration record (fields used by esp_updater.c).
The two-element C arrays roms, roms_sizes, fs_addresses, fs_sizes are
represented by explicit 0/1 fields with get/set helpers below. -/
structure rboot_config where
  current_rom : Nat
  previous_rom : Nat
  fw_updated : Bool
  is_first_boot : Bool
  boot_attempts : Nat
  roms0 : Nat
  roms1 : Nat
  roms_sizes0 : Nat
  roms_sizes1 : Nat
  fs_addresses0 : Nat
  fs_addresses1 : Nat
  fs_sizes0 : Nat
  fs_sizes1 : Nat
  user_flags : Nat
deriving DecidableEq

def romsGet (c : rboot_config) (i : Nat) : Nat :=
  if i = 0 then c.roms0 else c.roms1

def romsSizesGet (c : rboot_config) (i : Nat) : Nat :=
  if i = 0 then c.roms_sizes0 else c.roms_sizes1

def fsAddressesGet (c : rboot_config) (i : Nat) : Nat :=
  if i = 0 then c.fs_addresses0 else c.fs_addresses1

def fsSizesGet (c : rboot_config) (i : Nat) : Nat :=
  if i = 0 then c.fs_sizes0 else c.fs_sizes1

def setRoms (c : rboot_config) (i v : Nat) : rboot_config :=
  if i = 0 then { c with roms0 := v } else { c with roms1 := v }

def setRomsSizes (c : rboot_config) (i v : Nat) : rboot_config :=
  if i = 0 then { c with roms_sizes0 := v } else { c with roms_sizes1 := v }

def setFsAddresses (c : rboot_config) (i v : Nat) : rboot_config :=
  if i = 0 then { c with fs_addresses0 := v } else { c with fs_addresses1 := v }

def setFsSizes (c : rboot_config) (i v : Nat) : rboot_config :=
  if i = 0 then { c with fs_sizes0 := v } else { c with fs_sizes1 := v }

/-- The in-memory boot config (get_rboot_config's target) together with a
log of every config handed to the persist primitive. -/
structure BootEnv where
  cfg : rboot_config
  persist_log : List rboot_config
deriving DecidableEq

/-- Modelled from the spec: rboot_set_config is the bootloader-provided
persist primitive (not under src/).  It is handed the (already mutated)
in-memory config; we record the persisted config in the log and let the
call's success be the oracle parameter ok. -/
def rboot_set_config (ok : Bool) (env : BootEnv) : BootEnv × Bool :=
  ({ cfg := env.cfg, persist_log := env.persist_log ++ [env.cfg] }, ok)

/-- struct mgos_upd_boot_state (slot fields are C ints). -/
structure mgos_upd_boot_state where
  active_slot : Int
  revert_slot : Int
  is_committed : Bool
deriving DecidableEq

/-- mgos_upd_boot_get_state: reads the boot state from the rboot config. -/
def mgos_upd_boot_get_state (cfg : rboot_config) : mgos_upd_boot_state :=
  { active_slot := (cfg.current_rom : Int)
    revert_slot := (cfg.previous_rom : Int)
    is_committed := !cfg.fw_updated }

/-- mgos_upd_boot_set_state: validates slots, writes the config fields and
calls the persist primitive. -/
def mgos_upd_boot_set_state (ok : Bool) (env : BootEnv)
    (bs : mgos_upd_boot_state) : BootEnv × Bool :=
  if bs.active_slot < 0 ∨ bs.active_slot > 1 ∨
     bs.revert_slot < 0 ∨ bs.revert_slot > 1 then
    (env, false)
  else
    let cfg := { env.cfg with
      current_rom := bs.active_slot.toNat
      previous_rom := bs.revert_slot.toNat
      fw_updated := !bs.is_committed
      is_first_boot := !bs.is_committed
      boot_attempts := 0
      user_flags := 0 }
    rboot_set_config ok { env with cfg := cfg }

/-- mgos_upd_boot_commit (the set_state call's result is discarded, as in
the source, which declares the function void). -/
def mgos_upd_boot_commit (ok : Bool) (env : BootEnv) : BootEnv :=
  let s := mgos_upd_boot_get_state env.cfg
  if s.is_committed then env
  else (mgos_upd_boot_set_state ok env { s with is_committed := true }).1

/-- mgos_upd_boot_revert: toggles the active slot and marks committed. -/
def mgos_upd_boot_revert (ok : Bool) (env : BootEnv) : BootEnv :=
  let s := mgos_upd_boot_get_state env.cfg
  if s.is_committed then env
  else
    let s2 := { s with
      active_slot := if s.active_slot = 0 then 1 else 0
      is_committed := true }
    (mgos_upd_boot_set_state ok env s2).1

theorem set_state_in_range (ok : Bool) (env : BootEnv)
    (bs : mgos_upd_boot_state) (hA0 : 0 ≤ bs.active_slot)
    (hA1 : bs.active_slot ≤ 1) (hR0 : 0 ≤ bs.revert_slot)
    (hR1 : bs.revert_slot ≤ 1) :
    mgos_upd_boot_set_state ok env bs =
      (⟨{ env.cfg with
            current_rom := bs.active_slot.toNat
            previous_rom := bs.revert_slot.toNat
            fw_updated := !bs.is_committed
            is_first_boot := !bs.is_committed
            boot_attempts := 0
            user_flags := 0 },
          env.persist_log ++
            [{ env.cfg with
                current_rom := bs.active_slot.toNat
                previous_rom := bs.revert_slot.toNat
                fw_updated := !bs.is_committed
                is_first_boot := !bs.is_committed
                boot_attempts := 0
                user_flags := 0 }]⟩, ok) := by
  unfold mgos_upd_boot_set_state rboot_set_config
  rw [if_neg]
  omega

/-- A sample boot config: active slot 0, previous slot 1, update pending
(fw_updated), one boot attempt recorded and MERGE_FS requested. -/
def cfgSample : rboot_config :=
  ⟨0, 1, true, true, 2, 0x11000, 0x111000, 64, 64, 0x100000, 0x300000, 32, 32, 1⟩

def envSample : BootEnv := ⟨cfgSample, []⟩

/-- Claim C9: for every requested boot state whose active slot or revert
slot lies outside 0..1, mgos_upd_boot_set_state returns false, leaves the
boot config unchanged and never reaches the persist primitive (the persist
log is unchanged). -/
theorem C9_set_state_rejects_out_of_range (ok : Bool) (env : BootEnv)
    (bs : mgos_upd_boot_state)
    (h : bs.active_slot < 0 ∨ bs.active_slot > 1 ∨
         bs.revert_slot < 0 ∨ bs.revert_slot > 1) :
    mgos_upd_boot_set_state ok env bs = (env, false) := by
  unfold mgos_upd_boot_set_state
  rw [if_pos h]

theorem C9_set_state_rejects_out_of_range_witness :
    mgos_upd_boot_set_state true envSample ⟨2, 0, false⟩ = (envSample, false) :=
  C9_set_state_rejects_out_of_range true envSample ⟨2, 0, false⟩ (by decide)

/-- Claim C5: reading the boot state and writing it straight back (with the
persist primitive succeeding) preserves the active slot, the revert slot and
committedness (is_committed = not fw_updated), while boot_attempts and
user_flags are reset to 0. -/
theorem C5_get_set_round_trip (env : BootEnv)
    (h1 : env.cfg.current_rom ≤ 1) (h2 : env.cfg.previous_rom ≤ 1) :
    (mgos_upd_boot_set_state true env (mgos_upd_boot_get_state env.cfg)).2
        = true ∧
    (mgos_upd_boot_get_state (mgos_upd_boot_set_state true env
        (mgos_upd_boot_get_state env.cfg)).1.cfg).active_slot
      = (mgos_upd_boot_get_state env.cfg).active_slot ∧
    (mgos_upd_boot_get_state (mgos_upd_boot_set_state true env
        (mgos_upd_boot_get_state env.cfg)).1.cfg).revert_slot
      = (mgos_upd_boot_get_state env.cfg).revert_slot ∧
    (mgos_upd_boot_get_state (mgos_upd_boot_set_state true env
        (mgos_upd_boot_get_state env.cfg)).1.cfg).is_committed
      = (mgos_upd_boot_get_state env.cfg).is_committed ∧
    (mgos_upd_boot_set_state true env
        (mgos_upd_boot_get_state env.cfg)).1.cfg.fw_updated
      = env.cfg.fw_updated ∧
    (mgos_upd_boot_set_state true env
        (mgos_upd_boot_get_state env.cfg)).1.cfg.boot_attempts = 0 ∧
    (mgos_upd_boot_set_state true env
        (mgos_upd_boot_get_state env.cfg)).1.cfg.user_flags = 0 := by
  rw [set_state_in_range true env (mgos_upd_boot_get_state env.cfg)
    (by simp [mgos_upd_boot_get_state]) (by simp [mgos_upd_boot_get_state]; omega)
    (by simp [mgos_upd_boot_get_state]) (by simp [mgos_upd_boot_get_state]; omega)]
  simp [mgos_upd_boot_get_state]

theorem C5_get_set_round_trip_witness :
    (mgos_upd_boot_set_state true envSample
        (mgos_upd_boot_get_state envSample.cfg)).2 = true ∧
    (mgos_upd_boot_set_state true envSample
        (mgos_upd_boot_get_state envSample.cfg)).1.cfg.user_flags = 0 :=
  ⟨(C5_get_set_round_trip envSample (by decide) (by decide)).1,
   (C5_get_set_round_trip envSample (by decide) (by decide)).2.2.2.2.2.2⟩

/-- Claim C10: whenever mgos_upd_boot_commit or mgos_upd_boot_revert act
(state not yet committed, slots in range so the write goes through), the
resulting config has boot_attempts reset to 0 and user_flags cleared; in
particular any pending MERGE_FS request is dropped. -/
theorem C10_commit_revert_reset_flags (ok : Bool) (env : BootEnv)
    (h1 : env.cfg.current_rom ≤ 1) (h2 : env.cfg.previous_rom ≤ 1)
    (hfw : env.cfg.fw_updated = true) :
    (mgos_upd_boot_commit ok env).cfg.boot_attempts = 0 ∧
    (mgos_upd_boot_commit ok env).cfg.user_flags = 0 ∧
    (mgos_upd_boot_commit ok env).cfg.user_flags &&& BOOT_F_MERGE_FS = 0 ∧
    (mgos_upd_boot_revert ok env).cfg.boot_attempts = 0 ∧
    (mgos_upd_boot_revert ok env).cfg.user_flags = 0 ∧
    (mgos_upd_boot_revert ok env).cfg.user_flags &&& BOOT_F_MERGE_FS = 0 := by
  have hc : mgos_upd_boot_commit ok env =
      (mgos_upd_boot_set_state ok env
        { active_slot := (env.cfg.current_rom : Int)
          revert_slot := (env.cfg.previous_rom : Int)
          is_committed := true }).1 := by
    unfold mgos_upd_boot_commit
    simp [mgos_upd_boot_get_state, hfw]
  have hr : mgos_upd_boot_revert ok env =
      (mgos_upd_boot_set_state ok env
        { active_slot := if (env.cfg.current_rom : Int) = 0 then 1 else 0
          revert_slot := (env.cfg.previous_rom : Int)
          is_committed := true }).1 := by
    unfold mgos_upd_boot_revert
    simp [mgos_upd_boot_get_state, hfw]
  rw [hc, hr,
    set_state_in_range ok env _ (by simp) (by simp; omega)
      (by simp) (by simp; omega),
    set_state_in_range ok env _
      (by by_cases hz : (env.cfg.current_rom : Int) = 0 <;> simp [hz])
      (by by_cases hz : (env.cfg.current_rom : Int) = 0 <;> simp [hz])
      (by simp) (by simp; omega)]
  simp [BOOT_F_MERGE_FS]

theorem C10_commit_revert_reset_flags_witness :
    (mgos_upd_boot_commit true envSample).cfg.user_flags = 0 ∧
    (mgos_upd_boot_revert true envSample).cfg.user_flags = 0 :=
  ⟨(C10_commit_revert_reset_flags true envSample (by decide) (by decide)
      (by decide)).2.1,
   (C10_commit_revert_reset_flags true envSample (by decide) (by decide)
      (by decide)).2.2.2.2.1⟩

/-- Claim C2 (as stated) is false: on the uncommitted config with active
slot 0 and previous slot 1, mgos_upd_boot_revert leaves previous_rom at 1,
so the new previous slot does not equal the old active slot 0 — the source
only toggles the active slot and never writes the revert slot. -/
theorem C2_revert_no_swap_counterexample :
    envSample.cfg.fw_updated = true ∧
    envSample.cfg.current_rom ≤ 1 ∧ envSample.cfg.previous_rom ≤ 1 ∧
    (mgos_upd_boot_revert true envSample).cfg.previous_rom ≠
      envSample.cfg.current_rom := by decide

/-- Claim C2 (amended): if the state is not committed, mgos_upd_boot_revert
sets the active slot to the other slot (which equals the old previous slot
whenever active and previous differ), leaves the previous slot unchanged,
marks the state committed (fw_updated false) and persists the new config;
if the state is already committed it changes nothing. -/
theorem C2_revert_behavior (ok : Bool) (env : BootEnv)
    (h1 : env.cfg.current_rom ≤ 1) (h2 : env.cfg.previous_rom ≤ 1) :
    (env.cfg.fw_updated = true →
      (mgos_upd_boot_revert ok env).cfg.current_rom =
        (if env.cfg.current_rom = 0 then 1 else 0) ∧
      (env.cfg.current_rom ≠ env.cfg.previous_rom →
        (mgos_upd_boot_revert ok env).cfg.current_rom =
          env.cfg.previous_rom) ∧
      (mgos_upd_boot_revert ok env).cfg.previous_rom =
        env.cfg.previous_rom ∧
      (mgos_upd_boot_revert ok env).cfg.fw_updated = false ∧
      (mgos_upd_boot_revert ok env).persist_log =
        env.persist_log ++ [(mgos_upd_boot_revert ok env).cfg]) ∧
    (env.cfg.fw_updated = false → mgos_upd_boot_revert ok env = env) := by
  constructor
  · intro hfw
    have hr : mgos_upd_boot_revert ok env =
        (mgos_upd_boot_set_state ok env
          { active_slot := if (env.cfg.current_rom : Int) = 0 then 1 else 0
            revert_slot := (env.cfg.previous_rom : Int)
            is_committed := true }).1 := by
      unfold mgos_upd_boot_revert
      simp [mgos_upd_boot_get_state, hfw]
    rw [hr,
      set_state_in_range ok env _
        (by by_cases hz : (env.cfg.current_rom : Int) = 0 <;> simp [hz])
        (by by_cases hz : (env.cfg.current_rom : Int) = 0 <;> simp [hz])
        (by simp) (by simp; omega)]
    by_cases hz : env.cfg.current_rom = 0 <;> simp [hz] <;> omega
  · intro hfw
    unfold mgos_upd_boot_revert
    simp [mgos_upd_boot_get_state, hfw]

theorem C2_revert_behavior_witness :
    (mgos_upd_boot_revert true envSample).cfg.fw_updated = false ∧
    (mgos_upd_boot_revert true envSample).cfg.current_rom = 1 :=
  ⟨((C2_revert_behavior true envSample (by decide) (by decide)).1
      (by decide)).2.2.2.1,
   by
     have h := ((C2_revert_behavior true envSample (by decide)
       (by decide)).1 (by decide)).1
     simpa using h⟩

def CS_HEX_LEN : Nat := 40

/-- Flash layout constants (FW1_ADDR etc. come from esp_rboot.h, outside
this repository), kept abstract as parameters. -/
structure FlashLayout where
  FW1_ADDR : Nat
  FW1_FS_ADDR : Nat
  FW2_ADDR : Nat
  FW2_FS_ADDR : Nat
  FW_SIZE : Nat
  FS_SIZE : Nat
  BOOT_CONFIG_ADDR : Nat
deriving DecidableEq

structure slot_info where
  id : Nat
  fw_addr : Nat
  fw_size : Nat
  fw_slot_size : Nat
  fs_addr : Nat
  fs_size : Nat
  fs_slot_size : Nat
deriving DecidableEq

/-- get_slot_info: static addresses by slot id, sizes from the config. -/
def get_slot_info (L : FlashLayout) (cfg : rboot_config) (id : Nat) :
    slot_info :=
  { id := id
    fw_addr := if id = 0 then L.FW1_ADDR else L.FW2_ADDR
    fs_addr := if id = 0 then L.FW1_FS_ADDR else L.FW2_FS_ADDR
    fw_size := romsSizesGet cfg id
    fw_slot_size := L.FW_SIZE
    fs_size := fsSizesGet cfg id
    fs_slot_size := L.FS_SIZE }

/-- struct mgos_upd_hal_ctx.  JSON tokens are the token text (absent
tokens are the empty string); the flash write sub-context keeps its addr
and max_size; wcs records which expected checksum the writer verifies. -/
structure mgos_upd_hal_ctx where
  status_msg : Option String
  write_slot : slot_info
  boot_file_name : String
  boot_cs_sha1 : String
  fw_file_name : String
  fw_cs_sha1 : String
  fs_file_name : String
  fs_cs_sha1 : String
  boot_addr : Nat
  boot_size : Nat
  fw_size : Nat
  fs_size : Nat
  update_bootloader : Bool
  wctx_addr : Nat
  wctx_max_size : Nat
  wcs : String
deriving DecidableEq

/-- mgos_upd_hal_ctx_create: calloc yields the all-zero context. -/
def mgos_upd_hal_ctx_create : mgos_upd_hal_ctx :=
  ⟨none, ⟨0, 0, 0, 0, 0, 0, 0⟩, "", "", "", "", "", "", 0, 0, 0, 0, false,
   0, 0, ""⟩

/-- The manifest as json_scanf leaves it: string fields that are absent
stay empty, absent numbers stay 0, an absent update flag stays false. -/
structure Manifest where
  has_fw_fs : Bool
  boot_src : String
  boot_addr : Nat
  boot_cs_sha1 : String
  boot_update : Bool
  fw_src : String
  fw_cs_sha1 : String
  fs_src : String
  fs_addr : Nat
  fs_cs_sha1 : String
deriving DecidableEq

/-- mgos_upd_begin.  flashReadOk is the oracle for the spi_flash_read of
the flash params (hardware, outside src/).  The two validation checks read
ctx.update_bootloader exactly as the source does: the field is assigned
from the manifest's update flag only after slot selection, so on a fresh
context both boot-related checks see false. -/
def mgos_upd_begin (L : FlashLayout) (flashReadOk : Bool)
    (ctx : mgos_upd_hal_ctx) (parts : Manifest) (env : BootEnv) :
    mgos_upd_hal_ctx × Int :=
  if !parts.has_fw_fs then
    ({ ctx with status_msg := some "Invalid manifest" }, -1)
  else
    let ctx := { ctx with
      boot_file_name := parts.boot_src
      boot_cs_sha1 := parts.boot_cs_sha1
      fw_file_name := parts.fw_src
      fw_cs_sha1 := parts.fw_cs_sha1
      fs_file_name := parts.fs_src
      fs_cs_sha1 := parts.fs_cs_sha1 }
    if ctx.fw_file_name.length = 0 ∨ ctx.fw_cs_sha1.length = 0 ∨
       ctx.fs_file_name.length = 0 ∨ ctx.fs_cs_sha1.length = 0 ∨
       parts.fs_addr = 0 ∨
       (ctx.update_bootloader ∧
        (ctx.boot_file_name.length = 0 ∨ ctx.boot_cs_sha1.length = 0)) then
      ({ ctx with status_msg := some "Incomplete update package" }, -3)
    else if ctx.fw_cs_sha1.length ≠ CS_HEX_LEN ∨
            ctx.fs_cs_sha1.length ≠ CS_HEX_LEN ∨
            (ctx.update_bootloader ∧
             ctx.boot_cs_sha1.length ≠ CS_HEX_LEN) then
      ({ ctx with status_msg := some "Invalid checksum format" }, -4)
    else
      let bs := mgos_upd_boot_get_state env.cfg
      let inactive_slot : Nat := if bs.active_slot = 0 then 1 else 0
      let ctx := { ctx with
        write_slot := get_slot_info L env.cfg inactive_slot }
      if ctx.write_slot.fw_addr = 0 then
        ({ ctx with status_msg := some "OTA is not supported in this build" },
         -5)
      else
        let ctx := { ctx with
          boot_addr := parts.boot_addr
          update_bootloader := parts.boot_update }
        if ctx.update_bootloader ∧ flashReadOk = false then
          ({ ctx with status_msg := some "Failed to read flash params" }, -6)
        else (ctx, 1)

/-- C strncmp(a, b, n) == 0, with the NUL terminator modelled by the end
of the character list. -/
def charsNcmpEq : List Char → List Char → Nat → Bool
  | _, _, 0 => true
  | [], [], _ + 1 => true
  | [], _ :: _, _ + 1 => false
  | _ :: _, [], _ + 1 => false
  | a :: as, b :: bs, n + 1 => a == b && charsNcmpEq as bs n

def cStrncmpEq (a b : String) (n : Nat) : Bool :=
  charsNcmpEq a.data b.data n

inductive mgos_upd_file_action where
  | MGOS_UPDATER_PROCESS_FILE
  | MGOS_UPDATER_SKIP_FILE
  | MGOS_UPDATER_ABORT
deriving DecidableEq

structure mgos_upd_file_info where
  name : String
  size : Nat
deriving DecidableEq

/-- The shared tail of mgos_upd_file_begin after the file is matched: the
res check, the capacity check, the cap tightening and the non-critical
pre-verify (verifyOk is the oracle for verify_checksum over the flash). -/
def fileBeginTail (verifyOk : Nat → Nat → String → Bool)
    (ctx : mgos_upd_hal_ctx) (fi : mgos_upd_file_info) (res : Bool) :
    mgos_upd_hal_ctx × mgos_upd_file_action :=
  if !res then
    ({ ctx with status_msg := some "Failed to start write" },
     .MGOS_UPDATER_ABORT)
  else if fi.size > ctx.wctx_max_size then
    ({ ctx with status_msg := some "Image too big" }, .MGOS_UPDATER_ABORT)
  else
    let ctx := { ctx with wctx_max_size := fi.size }
    if verifyOk ctx.wctx_addr fi.size ctx.wcs then
      (ctx, .MGOS_UPDATER_SKIP_FILE)
    else (ctx, .MGOS_UPDATER_PROCESS_FILE)

/-- mgos_upd_file_begin.  initOk is the oracle for
esp_init_flash_write_ctx (the flash writer is outside src/; modelled from
the spec as recording base and cap in the write sub-context). -/
def mgos_upd_file_begin (L : FlashLayout) (initOk : Nat → Nat → Bool)
    (verifyOk : Nat → Nat → String → Bool) (ctx : mgos_upd_hal_ctx)
    (fi : mgos_upd_file_info) : mgos_upd_hal_ctx × mgos_upd_file_action :=
  if ctx.update_bootloader &&
     cStrncmpEq fi.name ctx.boot_file_name ctx.boot_file_name.length then
    if fi.size ≤ L.BOOT_CONFIG_ADDR then
      fileBeginTail verifyOk
        { ctx with
          wctx_addr := ctx.boot_addr
          wctx_max_size := L.BOOT_CONFIG_ADDR
          wcs := ctx.boot_cs_sha1
          boot_size := fi.size }
        fi (initOk ctx.boot_addr L.BOOT_CONFIG_ADDR)
    else
      fileBeginTail verifyOk ctx fi false
  else if cStrncmpEq fi.name ctx.fw_file_name ctx.fw_file_name.length then
    fileBeginTail verifyOk
      { ctx with
        wctx_addr := ctx.write_slot.fw_addr
        wctx_max_size := ctx.write_slot.fw_slot_size
        wcs := ctx.fw_cs_sha1
        fw_size := fi.size }
      fi (initOk ctx.write_slot.fw_addr ctx.write_slot.fw_slot_size)
  else if cStrncmpEq fi.name ctx.fs_file_name ctx.fs_file_name.length then
    fileBeginTail verifyOk
      { ctx with
        wctx_addr := ctx.write_slot.fs_addr
        wctx_max_size := ctx.write_slot.fs_slot_size
        wcs := ctx.fs_cs_sha1
        fs_size := fi.size }
      fi (initOk ctx.write_slot.fs_addr ctx.write_slot.fs_slot_size)
  else (ctx, .MGOS_UPDATER_SKIP_FILE)

/-- mgos_upd_finalize: checks both parts were seen, rewrites the boot
config for the write slot and persists it. -/
def mgos_upd_finalize (ok : Bool) (ctx : mgos_upd_hal_ctx) (env : BootEnv) :
    mgos_upd_hal_ctx × BootEnv × Int :=
  if ctx.fw_size = 0 then
    ({ ctx with status_msg := some "Missing fw part" }, env, -1)
  else if ctx.fs_size = 0 then
    ({ ctx with status_msg := some "Missing fs part" }, env, -2)
  else
    let slot := ctx.write_slot.id
    let cfg1 := { env.cfg with
      current_rom := slot
      previous_rom := if slot = 0 then 1 else 0 }
    let cfg2 := setFsSizes (setFsAddresses (setRomsSizes
      (setRoms cfg1 slot ctx.write_slot.fw_addr) slot ctx.fw_size) slot
      ctx.write_slot.fs_addr) slot ctx.fs_size
    let cfg3 := { cfg2 with
      is_first_boot := true
      fw_updated := true
      boot_attempts := 0
      user_flags := cfg2.user_flags ||| BOOT_F_MERGE_FS }
    let r := rboot_set_config ok { env with cfg := cfg3 }
    if r.2 = false then
      ({ ctx with status_msg := some "Failed to set boot config" }, r.1, -3)
    else (ctx, r.1, 1)

/-- C boolean NOT on an integer value: !x is 1 when x is 0, else 0. -/
def cBoolNot (x : Nat) : Nat := if x = 0 then 1 else 0

/-- mgos_upd_apply_update.  The guard reproduces the source expression
(!cfg->user_flags) & BOOT_F_MERGE_FS with C precedence.  mountOk and
mergeOk are the oracles for esp_fs_mount and mgos_upd_merge_fs (both
outside src/); the third result component records whether the old
filesystem merge was performed (mount attempted). -/
def mgos_upd_apply_update (mountOk mergeOk persistOk : Bool)
    (env : BootEnv) : BootEnv × Int × Bool :=
  if cBoolNot env.cfg.user_flags &&& BOOT_F_MERGE_FS ≠ 0 then
    (env, 0, false)
  else if mountOk = false then (env, -1, true)
  else
    let ret : Int := if mergeOk then 0 else -2
    if ret = 0 then
      let cfg := { env.cfg with
        user_flags := env.cfg.user_flags &&& 0xFFFFFFFE }
      ((rboot_set_config persistOk { env with cfg := cfg }).1, 0, true)
    else (env, ret, true)

def layoutSample : FlashLayout :=
  ⟨0x11000, 0x100000, 0x111000, 0x300000, 0xEF000, 0x80000, 0x1000⟩

/-- A manifest with complete fw and fs entries, the boot update flag set,
but no boot src and no boot cs_sha1. -/
def manifestC3 : Manifest :=
  { has_fw_fs := true
    boot_src := ""
    boot_addr := 0
    boot_cs_sha1 := ""
    boot_update := true
    fw_src := "fw.bin"
    fw_cs_sha1 := "0123456789abcdef0123456789abcdef01234567"
    fs_src := "fs.bin"
    fs_addr := 0x200000
    fs_cs_sha1 := "76543210fedcba9876543210fedcba9876543210" }

/-- Claim C3 describes the source's own (dead) check, but the source reads
ctx->update_bootloader before assigning it from the manifest's update
flag, and on a freshly calloc-ed context that field is false: with a
manifest whose boot entry has update set but src and cs_sha1 absent,
mgos_upd_begin does not return -3 — it runs to completion and returns 1,
and status_msg is never set to "Incomplete update package". -/
theorem C3_begin_accepts_incomplete_boot_fields :
    (mgos_upd_begin layoutSample true mgos_upd_hal_ctx_create manifestC3
        envSample).2 = 1 ∧
    (mgos_upd_begin layoutSample true mgos_upd_hal_ctx_create manifestC3
        envSample).1.status_msg ≠ some "Incomplete update package" := by
  decide

/-- A boot env whose user_flags has a bit other than MERGE_FS set. -/
def envMergeCx : BootEnv := ⟨{ cfgSample with user_flags := 2 }, []⟩

/-- Claim C1 is contradicted by the source: the guard evaluates
(!cfg->user_flags) & BOOT_F_MERGE_FS, so it returns 0 early only when
user_flags is 0.  With user_flags = 2 — MERGE_FS bit clear — the function
still mounts the previous filesystem and performs the merge (and returns 0
after a successful merge) instead of returning 0 without merging. -/
theorem C1_apply_update_merges_without_flag :
    envMergeCx.cfg.user_flags &&& BOOT_F_MERGE_FS = 0 ∧
    (mgos_upd_apply_update true true true envMergeCx).2.2 = true ∧
    (mgos_upd_apply_update true true true envMergeCx).2.1 = 0 := by decide

/-- Claim C4: mgos_upd_finalize returns -1 / "Missing fw part" when the
recorded fw size is 0 and -2 / "Missing fs part" when the recorded fs size
is 0, leaving the boot config untouched; otherwise it makes the write slot
active, the other slot previous, records the slot's rom and fs layout from
the context, sets is_first_boot and fw_updated, zeroes boot_attempts, ORs
MERGE_FS into user_flags and persists, returning 1 — or -3 with
"Failed to set boot config" when the persist fails. -/
theorem C4_finalize_behavior (ctx : mgos_upd_hal_ctx) (env : BootEnv)
    (ok : Bool) :
    (ctx.fw_size = 0 →
      mgos_upd_finalize ok ctx env =
        ({ ctx with status_msg := some "Missing fw part" }, env, -1)) ∧
    (ctx.fw_size ≠ 0 → ctx.fs_size = 0 →
      mgos_upd_finalize ok ctx env =
        ({ ctx with status_msg := some "Missing fs part" }, env, -2)) ∧
    (ctx.fw_size ≠ 0 → ctx.fs_size ≠ 0 →
      (mgos_upd_finalize true ctx env).2.2 = 1 ∧
      (mgos_upd_finalize true ctx env).1 = ctx ∧
      (mgos_upd_finalize true ctx env).2.1.cfg.current_rom =
        ctx.write_slot.id ∧
      (mgos_upd_finalize true ctx env).2.1.cfg.previous_rom =
        (if ctx.write_slot.id = 0 then 1 else 0) ∧
      romsGet (mgos_upd_finalize true ctx env).2.1.cfg ctx.write_slot.id =
        ctx.write_slot.fw_addr ∧
      romsSizesGet (mgos_upd_finalize true ctx env).2.1.cfg
        ctx.write_slot.id = ctx.fw_size ∧
      fsAddressesGet (mgos_upd_finalize true ctx env).2.1.cfg
        ctx.write_slot.id = ctx.write_slot.fs_addr ∧
      fsSizesGet (mgos_upd_finalize true ctx env).2.1.cfg
        ctx.write_slot.id = ctx.fs_size ∧
      (mgos_upd_finalize true ctx env).2.1.cfg.is_first_boot = true ∧
      (mgos_upd_finalize true ctx env).2.1.cfg.fw_updated = true ∧
      (mgos_upd_finalize true ctx env).2.1.cfg.boot_attempts = 0 ∧
      (mgos_upd_finalize true ctx env).2.1.cfg.user_flags =
        (env.cfg.user_flags ||| BOOT_F_MERGE_FS) ∧
      (mgos_upd_finalize true ctx env).2.1.persist_log =
        env.persist_log ++ [(mgos_upd_finalize true ctx env).2.1.cfg]) ∧
    (ctx.fw_size ≠ 0 → ctx.fs_size ≠ 0 →
      (mgos_upd_finalize false ctx env).2.2 = -3 ∧
      (mgos_upd_finalize false ctx env).1.status_msg =
        some "Failed to set boot config") := by
  refine ⟨?_, ?_, ?_, ?_⟩
  · intro h
    simp [mgos_upd_finalize, h]
  · intro h1 h2
    simp [mgos_upd_finalize, h1, h2]
  · intro h1 h2
    by_cases hs : ctx.write_slot.id = 0 <;>
      simp [mgos_upd_finalize, rboot_set_config, h1, h2, hs, romsGet,
        setRoms, romsSizesGet, setRomsSizes, fsAddressesGet, setFsAddresses,
        fsSizesGet, setFsSizes]
  · intro h1 h2
    simp [mgos_upd_finalize, rboot_set_config, h1, h2]

/-- A context as it stands after a complete streamed update into slot 1. -/
def ctxFinal : mgos_upd_hal_ctx :=
  { mgos_upd_hal_ctx_create with
    fw_size := 5
    fs_size := 3
    write_slot := ⟨1, 0x111000, 0, 0xEF000, 0x300000, 0, 0x80000⟩ }

theorem C4_finalize_behavior_witness :
    (mgos_upd_finalize true ctxFinal envSample).2.2 = 1 ∧
    (mgos_upd_finalize true ctxFinal envSample).2.1.cfg.current_rom = 1 :=
  ⟨((C4_finalize_behavior ctxFinal envSample true).2.2.1 (by decide)
      (by decide)).1,
   by
     have h := ((C4_finalize_behavior ctxFinal envSample true).2.2.1
       (by decide) (by decide)).2.2.1
     simpa using h⟩

/-- A fresh context configured for a bootloader update whose boot file is
named boot.bin, with a 40-char checksum. -/
def ctxBootBig : mgos_upd_hal_ctx :=
  { mgos_upd_hal_ctx_create with
    update_bootloader := true
    boot_file_name := "boot.bin"
    boot_cs_sha1 := "0123456789abcdef0123456789abcdef01234567"
    boot_addr := 0 }

/-- Claim C6 (as stated) fails for the boot file: with BOOT_CONFIG_ADDR
0x1000 and a matching boot file of size 0x2000, mgos_upd_file_begin does
return ABORT, but status_msg is "Failed to start write" (the boot-size
check sets res to false before the capacity check that would say
"Image too big"). -/
theorem C6_boot_oversize_counterexample :
    (mgos_upd_file_begin layoutSample (fun _ _ => true) (fun _ _ _ => false)
        ctxBootBig ⟨"boot.bin", 0x2000⟩).2 =
      mgos_upd_file_action.MGOS_UPDATER_ABORT ∧
    (mgos_upd_file_begin layoutSample (fun _ _ => true) (fun _ _ _ => false)
        ctxBootBig ⟨"boot.bin", 0x2000⟩).1.status_msg =
      some "Failed to start write" ∧
    (mgos_upd_file_begin layoutSample (fun _ _ => true) (fun _ _ _ => false)
        ctxBootBig ⟨"boot.bin", 0x2000⟩).1.status_msg ≠
      some "Image too big" := by decide

/-- Claim C6 (amended): an oversize fw or fs file (matched, writer init
succeeding, declared size above the slot capacity) makes
mgos_upd_file_begin return ABORT with status "Image too big"; an oversize
boot file (size above the boot config address) also returns ABORT, but
with status "Failed to start write". -/
theorem C6_file_begin_oversize (L : FlashLayout)
    (initOk : Nat → Nat → Bool) (verifyOk : Nat → Nat → String → Bool)
    (ctx : mgos_upd_hal_ctx) (fi : mgos_upd_file_info) :
    ((ctx.update_bootloader &&
        cStrncmpEq fi.name ctx.boot_file_name ctx.boot_file_name.length)
        = true →
      fi.size > L.BOOT_CONFIG_ADDR →
      mgos_upd_file_begin L initOk verifyOk ctx fi =
        ({ ctx with status_msg := some "Failed to start write" },
         .MGOS_UPDATER_ABORT)) ∧
    ((ctx.update_bootloader &&
        cStrncmpEq fi.name ctx.boot_file_name ctx.boot_file_name.length)
        = false →
      cStrncmpEq fi.name ctx.fw_file_name ctx.fw_file_name.length = true →
      initOk ctx.write_slot.fw_addr ctx.write_slot.fw_slot_size = true →
      fi.size > ctx.write_slot.fw_slot_size →
      (mgos_upd_file_begin L initOk verifyOk ctx fi).2 =
        .MGOS_UPDATER_ABORT ∧
      (mgos_upd_file_begin L initOk verifyOk ctx fi).1.status_msg =
        some "Image too big") ∧
    ((ctx.update_bootloader &&
        cStrncmpEq fi.name ctx.boot_file_name ctx.boot_file_name.length)
        = false →
      cStrncmpEq fi.name ctx.fw_file_name ctx.fw_file_name.length = false →
      cStrncmpEq fi.name ctx.fs_file_name ctx.fs_file_name.length = true →
      initOk ctx.write_slot.fs_addr ctx.write_slot.fs_slot_size = true →
      fi.size > ctx.write_slot.fs_slot_size →
      (mgos_upd_file_begin L initOk verifyOk ctx fi).2 =
        .MGOS_UPDATER_ABORT ∧
      (mgos_upd_file_begin L initOk verifyOk ctx fi).1.status_msg =
        some "Image too big") := by
  refine ⟨?_, ?_, ?_⟩
  · intro h1 h2
    have hng : ¬ fi.size ≤ L.BOOT_CONFIG_ADDR := by omega
    simp [mgos_upd_file_begin, fileBeginTail, h1, hng]
  · intro h1 h2 h3 h4
    simp [mgos_upd_file_begin, fileBeginTail, h1, h2, h3, h4]
  · intro h1 h2 h3 h4 h5
    simp [mgos_upd_file_begin, fileBeginTail, h1, h2, h3, h4, h5]

/-- A context after a successful mgos_upd_begin for a normal (no
bootloader) update writing into slot 1. -/
def ctxFwFile : mgos_upd_hal_ctx :=
  { mgos_upd_hal_ctx_create with
    fw_file_name := "fw.bin"
    fw_cs_sha1 := "0123456789abcdef0123456789abcdef01234567"
    fs_file_name := "fs.bin"
    fs_cs_sha1 := "76543210fedcba9876543210fedcba9876543210"
    write_slot := ⟨1, 0x111000, 0, 0xEF000, 0x300000, 0, 0x80000⟩ }

theorem C6_file_begin_oversize_witness :
    (mgos_upd_file_begin layoutSample (fun _ _ => true) (fun _ _ _ => false)
        ctxFwFile ⟨"fw.bin", 0xF0000⟩).1.status_msg = some "Image too big" :=
  ((C6_file_begin_oversize layoutSample (fun _ _ => true)
      (fun _ _ _ => false) ctxFwFile ⟨"fw.bin", 0xF0000⟩).2.1
    (by decide) (by decide) rfl (by decide)).2

/-- Claim C7 (as stated) fails for a zero-size file: a matching fw file of
declared size 0 whose (empty) region verifies is skipped, but the recorded
fw size is 0, so mgos_upd_finalize then fails with -1 and
"Missing fw part" — a missing-part error on account of the skipped file. -/
theorem C7_zero_size_counterexample :
    (mgos_upd_file_begin layoutSample (fun _ _ => true) (fun _ _ _ => true)
        ctxFwFile ⟨"fw.bin", 0⟩).2 =
      mgos_upd_file_action.MGOS_UPDATER_SKIP_FILE ∧
    (mgos_upd_finalize true
        (mgos_upd_file_begin layoutSample (fun _ _ => true)
          (fun _ _ _ => true) ctxFwFile ⟨"fw.bin", 0⟩).1 envSample).2.2 =
      -1 ∧
    (mgos_upd_finalize true
        (mgos_upd_file_begin layoutSample (fun _ _ => true)
          (fun _ _ _ => true) ctxFwFile ⟨"fw.bin", 0⟩).1
        envSample).1.status_msg = some "Missing fw part" := by decide

/-- Claim C7 (amended): for a matched file whose target region verifies
non-critically, mgos_upd_file_begin returns SKIP_FILE (no write is ever
issued: the function only initializes the writer bounds and reads flash
for the checksum), and the file's size is already recorded in the context
(fw_size, fs_size or boot_size); provided that size is nonzero, a
subsequent mgos_upd_finalize cannot fail with the missing-part error of
the skipped file. -/
theorem C7_file_begin_skip_records_size (L : FlashLayout)
    (initOk : Nat → Nat → Bool) (verifyOk : Nat → Nat → String → Bool)
    (ctx : mgos_upd_hal_ctx) (fi : mgos_upd_file_info) (env : BootEnv)
    (ok : Bool) :
    ((ctx.update_bootloader &&
        cStrncmpEq fi.name ctx.boot_file_name ctx.boot_file_name.length)
        = false →
      cStrncmpEq fi.name ctx.fw_file_name ctx.fw_file_name.length = true →
      initOk ctx.write_slot.fw_addr ctx.write_slot.fw_slot_size = true →
      fi.size ≤ ctx.write_slot.fw_slot_size →
      verifyOk ctx.write_slot.fw_addr fi.size ctx.fw_cs_sha1 = true →
      (mgos_upd_file_begin L initOk verifyOk ctx fi).2 =
        .MGOS_UPDATER_SKIP_FILE ∧
      (mgos_upd_file_begin L initOk verifyOk ctx fi).1.fw_size = fi.size ∧
      (fi.size ≠ 0 →
        (mgos_upd_finalize ok
          (mgos_upd_file_begin L initOk verifyOk ctx fi).1 env).2.2 ≠ -1)) ∧
    ((ctx.update_bootloader &&
        cStrncmpEq fi.name ctx.boot_file_name ctx.boot_file_name.length)
        = false →
      cStrncmpEq fi.name ctx.fw_file_name ctx.fw_file_name.length = false →
      cStrncmpEq fi.name ctx.fs_file_name ctx.fs_file_name.length = true →
      initOk ctx.write_slot.fs_addr ctx.write_slot.fs_slot_size = true →
      fi.size ≤ ctx.write_slot.fs_slot_size →
      verifyOk ctx.write_slot.fs_addr fi.size ctx.fs_cs_sha1 = true →
      (mgos_upd_file_begin L initOk verifyOk ctx fi).2 =
        .MGOS_UPDATER_SKIP_FILE ∧
      (mgos_upd_file_begin L initOk verifyOk ctx fi).1.fs_size = fi.size ∧
      (fi.size ≠ 0 →
        (mgos_upd_finalize ok
          (mgos_upd_file_begin L initOk verifyOk ctx fi).1 env).2.2 ≠ -2)) ∧
    ((ctx.update_bootloader &&
        cStrncmpEq fi.name ctx.boot_file_name ctx.boot_file_name.length)
        = true →
      fi.size ≤ L.BOOT_CONFIG_ADDR →
      initOk ctx.boot_addr L.BOOT_CONFIG_ADDR = true →
      verifyOk ctx.boot_addr fi.size ctx.boot_cs_sha1 = true →
      (mgos_upd_file_begin L initOk verifyOk ctx fi).2 =
        .MGOS_UPDATER_SKIP_FILE ∧
      (mgos_upd_file_begin L initOk verifyOk ctx fi).1.boot_size =
        fi.size) := by
  refine ⟨?_, ?_, ?_⟩
  · intro h1 h2 h3 h4 h5
    have hng : ¬ fi.size > ctx.write_slot.fw_slot_size := by omega
    have e : mgos_upd_file_begin L initOk verifyOk ctx fi =
        ({ ctx with
            wctx_addr := ctx.write_slot.fw_addr
            wctx_max_size := fi.size
            wcs := ctx.fw_cs_sha1
            fw_size := fi.size }, .MGOS_UPDATER_SKIP_FILE) := by
      simp [mgos_upd_file_begin, fileBeginTail, h1, h2, h3, h5, hng]
    rw [e]
    refine ⟨rfl, rfl, ?_⟩
    intro hnz
    by_cases hfs : ctx.fs_size = 0 <;> by_cases hok : ok = true <;>
      simp [mgos_upd_finalize, rboot_set_config, hnz, hfs, hok]
  · intro h1 h2 h3 h4 h5 h6
    have hng : ¬ fi.size > ctx.write_slot.fs_slot_size := by omega
    have e : mgos_upd_file_begin L initOk verifyOk ctx fi =
        ({ ctx with
            wctx_addr := ctx.write_slot.fs_addr
            wctx_max_size := fi.size
            wcs := ctx.fs_cs_sha1
            fs_size := fi.size }, .MGOS_UPDATER_SKIP_FILE) := by
      simp [mgos_upd_file_begin, fileBeginTail, h1, h2, h3, h4, h6, hng]
    rw [e]
    refine ⟨rfl, rfl, ?_⟩
    intro hnz
    by_cases hfw : ctx.fw_size = 0 <;> by_cases hok : ok = true <;>
      simp [mgos_upd_finalize, rboot_set_config, hnz, hfw, hok]
  · intro h1 h2 h3 h4
    have hng : ¬ fi.size > L.BOOT_CONFIG_ADDR := by omega
    simp [mgos_upd_file_begin, fileBeginTail, h1, h2, h3, h4, hng]

theorem C7_file_begin_skip_records_size_witness :
    (mgos_upd_file_begin layoutSample (fun _ _ => true) (fun _ _ _ => true)
        ctxFwFile ⟨"fw.bin", 100⟩).2 =
      mgos_upd_file_action.MGOS_UPDATER_SKIP_FILE ∧
    (mgos_upd_file_begin layoutSample (fun _ _ => true) (fun _ _ _ => true)
        ctxFwFile ⟨"fw.bin", 100⟩).1.fw_size = 100 ∧
    (mgos_upd_finalize true
        (mgos_upd_file_begin layoutSample (fun _ _ => true)
          (fun _ _ _ => true) ctxFwFile ⟨"fw.bin", 100⟩).1
        envSample).2.2 ≠ -1 :=
  ⟨((C7_file_begin_skip_records_size layoutSample (fun _ _ => true)
      (fun _ _ _ => true) ctxFwFile ⟨"fw.bin", 100⟩ envSample true).1
      (by decide) (by decide) rfl (by decide) rfl).1,
   ((C7_file_begin_skip_records_size layoutSample (fun _ _ => true)
      (fun _ _ _ => true) ctxFwFile ⟨"fw.bin", 100⟩ envSample true).1
      (by decide) (by decide) rfl (by decide) rfl).2.1,
   ((C7_file_begin_skip_records_size layoutSample (fun _ _ => true)
      (fun _ _ _ => true) ctxFwFile ⟨"fw.bin", 100⟩ envSample true).1
      (by decide) (by decide) rfl (by decide) rfl).2.2 (by decide)⟩

/-- Flash contents as a byte map. -/
def Flash : Type := Nat → Nat

/-- The bytes of the flash region starting at addr of the given length. -/
def region (f : Flash) (addr len : Nat) : List Nat :=
  (List.range len).map fun i => f (addr + i)

/-- Modelled from the spec: a successful streamed write of data at dst
(esp_flash_write lives outside src/; the spec's Flash Writer guarantee is
that on success the written bytes equal the source stream). -/
def writeRegion (f : Flash) (dst : Nat) (data : List Nat) : Flash :=
  fun a =>
    if dst ≤ a ∧ a < dst + data.length then data.getD (a - dst) 0 else f a

/-- The flash-to-flash copy loop of copy_region: 512-byte chunks (a
128-word read buffer), reading from the current flash state and writing
through the flash writer.  Fuel bounds the iteration count (len suffices,
each iteration consumes at least one byte). -/
def copy_loop : Nat → Flash → Nat → Nat → Nat → Nat → Flash
  | 0, f, _, _, _, _ => f
  | fuel + 1, f, src, dst, offset, len =>
    if offset < len then
      copy_loop fuel
        (writeRegion f (dst + offset)
          (region f (src + offset) (min 512 (len - offset))))
        src dst (offset + min 512 (len - offset)) len
    else f

/-- compute_checksum: the SHA-1 digest of a region, idealized as the
region's bytes (SHA-1 is treated as injective, so digest equality is
region equality). -/
def compute_checksum (f : Flash) (addr len : Nat) : List Nat :=
  region f addr len

/-- verify_checksum compares the computed digest with the expected one. -/
def verify_checksum (f : Flash) (addr len : Nat) (exp : List Nat) : Bool :=
  decide (region f addr len = exp)

/-- copy_region: skip when the destination already verifies against the
source digest, otherwise init the writer (initOk oracle), stream the copy
and verify the destination critically. -/
def copy_region (initOk : Bool) (f : Flash) (src dst len : Nat) :
    Flash × Bool :=
  if verify_checksum f dst len (compute_checksum f src len) then (f, true)
  else if initOk = false then (f, false)
  else
    (copy_loop len f src dst 0 len,
     verify_checksum (copy_loop len f src dst 0 len) dst len
       (compute_checksum f src len))

/-- mgos_upd_create_snapshot: copies the active slot's fw and fs regions
into the inactive slot, then records the inactive slot's layout in the
boot config. -/
def mgos_upd_create_snapshot (L : FlashLayout) (initOk persistOk : Bool)
    (f : Flash) (env : BootEnv) : Flash × BootEnv × Int :=
  let bs := mgos_upd_boot_get_state env.cfg
  let inactive_slot : Nat := if bs.active_slot = 0 then 1 else 0
  let rsi := get_slot_info L env.cfg bs.active_slot.toNat
  let wsi := get_slot_info L env.cfg inactive_slot
  let c1 := copy_region initOk f rsi.fw_addr wsi.fw_addr rsi.fw_size
  if c1.2 = false then (c1.1, env, -2)
  else
    let c2 := copy_region initOk c1.1 rsi.fs_addr wsi.fs_addr rsi.fs_size
    if c2.2 = false then (c2.1, env, -3)
    else
      let slot := wsi.id
      let cfg2 := setFsSizes (setFsAddresses (setRomsSizes
        (setRoms env.cfg slot wsi.fw_addr) slot rsi.fw_size) slot
        wsi.fs_addr) slot rsi.fs_size
      let r := rboot_set_config persistOk { env with cfg := cfg2 }
      if r.2 = false then (c2.1, r.1, -4)
      else (c2.1, r.1, (slot : Int))

theorem writeRegion_outside (f : Flash) (dst : Nat) (data : List Nat)
    (a : Nat) (h : a < dst ∨ dst + data.length ≤ a) :
    writeRegion f dst data a = f a := by
  unfold writeRegion
  rw [if_neg]
  omega

theorem region_length (f : Flash) (addr len : Nat) :
    (region f addr len).length = len := by
  simp [region]

theorem copy_loop_outside :
    ∀ (fuel : Nat) (f : Flash) (src dst offset len a : Nat),
      a < dst + offset ∨ dst + len ≤ a →
      copy_loop fuel f src dst offset len a = f a := by
  intro fuel
  induction fuel with
  | zero => intro f src dst offset len a h; rfl
  | succ n ih =>
    intro f src dst offset len a h
    unfold copy_loop
    split
    case isTrue hlt =>
      have hm1 : min 512 (len - offset) ≤ len - offset := Nat.min_le_right _ _
      rw [ih _ src dst _ len a (by omega)]
      apply writeRegion_outside
      rw [region_length]
      omega
    case isFalse hge => rfl

theorem region_congr_outside (f g : Flash) (dst len other olen : Nat)
    (hg : ∀ a, a < dst ∨ dst + len ≤ a → g a = f a)
    (hdis : other + olen ≤ dst ∨ dst + len ≤ other) :
    region g other olen = region f other olen := by
  unfold region
  apply List.map_congr_left
  intro i hi
  rw [List.mem_range] at hi
  apply hg
  omega

theorem copy_region_outside (iOk : Bool) (f : Flash) (src dst len a : Nat)
    (h : a < dst ∨ dst + len ≤ a) :
    (copy_region iOk f src dst len).1 a = f a := by
  unfold copy_region
  split
  · rfl
  · split
    · rfl
    · exact copy_loop_outside len f src dst 0 len a (by omega)

theorem copy_region_region_outside (iOk : Bool) (f : Flash)
    (src dst len other olen : Nat)
    (hdis : other + olen ≤ dst ∨ dst + len ≤ other) :
    region (copy_region iOk f src dst len).1 other olen =
      region f other olen :=
  region_congr_outside f (copy_region iOk f src dst len).1 dst len other olen
    (fun a ha => copy_region_outside iOk f src dst len a ha) hdis

theorem copy_region_ok (iOk : Bool) (f : Flash) (src dst len : Nat) :
    (copy_region iOk f src dst len).2 = true →
    region (copy_region iOk f src dst len).1 dst len =
      region f src len := by
  unfold copy_region verify_checksum compute_checksum
  split
  case isTrue hv =>
    intro _
    exact of_decide_eq_true hv
  case isFalse =>
    split
    · intro h
      exact absurd h (by simp)
    · intro h
      exact of_decide_eq_true h

/-- Claim C8: when mgos_upd_create_snapshot succeeds (nonnegative return),
it returns the inactive slot's id; afterwards the inactive slot's fw and
fs regions hold bytes whose digest equals the active slot's corresponding
regions, the boot config records the inactive slot's rom address/size and
fs address/size as copied, and the active slot (current_rom) is unchanged.
rsi and wsi name the active (read) and inactive (write) slot layouts, and
the four regions involved are assumed pairwise disjoint as they are on the
real flash map. -/
theorem C8_create_snapshot (L : FlashLayout) (initOk persistOk : Bool)
    (f : Flash) (env : BootEnv) (rsi wsi : slot_info)
    (hr : rsi = get_slot_info L env.cfg
      (mgos_upd_boot_get_state env.cfg).active_slot.toNat)
    (hw : wsi = get_slot_info L env.cfg
      (if (mgos_upd_boot_get_state env.cfg).active_slot = 0 then 1 else 0))
    (d1 : wsi.fw_addr + rsi.fw_size ≤ wsi.fs_addr ∨
          wsi.fs_addr + rsi.fs_size ≤ wsi.fw_addr)
    (d2 : rsi.fw_addr + rsi.fw_size ≤ wsi.fw_addr ∨
          wsi.fw_addr + rsi.fw_size ≤ rsi.fw_addr)
    (d3 : rsi.fw_addr + rsi.fw_size ≤ wsi.fs_addr ∨
          wsi.fs_addr + rsi.fs_size ≤ rsi.fw_addr)
    (d4 : rsi.fs_addr + rsi.fs_size ≤ wsi.fw_addr ∨
          wsi.fw_addr + rsi.fw_size ≤ rsi.fs_addr)
    (d5 : rsi.fs_addr + rsi.fs_size ≤ wsi.fs_addr ∨
          wsi.fs_addr + rsi.fs_size ≤ rsi.fs_addr)
    (hret : 0 ≤ (mgos_upd_create_snapshot L initOk persistOk f env).2.2) :
    (mgos_upd_create_snapshot L initOk persistOk f env).2.2 =
      (wsi.id : Int) ∧
    region (mgos_upd_create_snapshot L initOk persistOk f env).1
        wsi.fw_addr rsi.fw_size =
      region (mgos_upd_create_snapshot L initOk persistOk f env).1
        rsi.fw_addr rsi.fw_size ∧
    region (mgos_upd_create_snapshot L initOk persistOk f env).1
        wsi.fs_addr rsi.fs_size =
      region (mgos_upd_create_snapshot L initOk persistOk f env).1
        rsi.fs_addr rsi.fs_size ∧
    romsGet (mgos_upd_create_snapshot L initOk persistOk f env).2.1.cfg
        wsi.id = wsi.fw_addr ∧
    romsSizesGet (mgos_upd_create_snapshot L initOk persistOk f env).2.1.cfg
        wsi.id = rsi.fw_size ∧
    fsAddressesGet
        (mgos_upd_create_snapshot L initOk persistOk f env).2.1.cfg
        wsi.id = wsi.fs_addr ∧
    fsSizesGet (mgos_upd_create_snapshot L initOk persistOk f env).2.1.cfg
        wsi.id = rsi.fs_size ∧
    (mgos_upd_create_snapshot L initOk persistOk f env).2.1.cfg.current_rom
      = env.cfg.current_rom := by
  simp only [mgos_upd_create_snapshot] at hret ⊢
  rw [← hr, ← hw] at hret ⊢
  by_cases h1 :
      (copy_region initOk f rsi.fw_addr wsi.fw_addr rsi.fw_size).2 = false
  · rw [if_pos h1] at hret
    norm_num at hret
  rw [if_neg h1] at hret ⊢
  by_cases h2 :
      (copy_region initOk
        (copy_region initOk f rsi.fw_addr wsi.fw_addr rsi.fw_size).1
        rsi.fs_addr wsi.fs_addr rsi.fs_size).2 = false
  · rw [if_pos h2] at hret
    norm_num at hret
  rw [if_neg h2] at hret ⊢
  simp only [rboot_set_config] at hret ⊢
  by_cases h3 : persistOk = false
  · rw [if_pos h3] at hret
    norm_num at hret
  rw [if_neg h3]
  simp only [Bool.ne_false_iff] at h1 h2
  have e1 := copy_region_ok initOk f rsi.fw_addr wsi.fw_addr rsi.fw_size h1
  have e2 := copy_region_ok initOk
    (copy_region initOk f rsi.fw_addr wsi.fw_addr rsi.fw_size).1
    rsi.fs_addr wsi.fs_addr rsi.fs_size h2
  have fr2a := copy_region_region_outside initOk
    (copy_region initOk f rsi.fw_addr wsi.fw_addr rsi.fw_size).1
    rsi.fs_addr wsi.fs_addr rsi.fs_size wsi.fw_addr rsi.fw_size d1
  have fr2b := copy_region_region_outside initOk
    (copy_region initOk f rsi.fw_addr wsi.fw_addr rsi.fw_size).1
    rsi.fs_addr wsi.fs_addr rsi.fs_size rsi.fw_addr rsi.fw_size d3
  have fr2c := copy_region_region_outside initOk
    (copy_region initOk f rsi.fw_addr wsi.fw_addr rsi.fw_size).1
    rsi.fs_addr wsi.fs_addr rsi.fs_size rsi.fs_addr rsi.fs_size d5
  have fr1b := copy_region_region_outside initOk f
    rsi.fw_addr wsi.fw_addr rsi.fw_size rsi.fw_addr rsi.fw_size d2
  have fr1c := copy_region_region_outside initOk f
    rsi.fw_addr wsi.fw_addr rsi.fw_size rsi.fs_addr rsi.fs_size d4
  refine ⟨rfl, ?_, ?_, ?_, ?_, ?_, ?_, ?_⟩
  · show region (copy_region initOk
        (copy_region initOk f rsi.fw_addr wsi.fw_addr rsi.fw_size).1
        rsi.fs_addr wsi.fs_addr rsi.fs_size).1 wsi.fw_addr rsi.fw_size =
      region (copy_region initOk
        (copy_region initOk f rsi.fw_addr wsi.fw_addr rsi.fw_size).1
        rsi.fs_addr wsi.fs_addr rsi.fs_size).1 rsi.fw_addr rsi.fw_size
    rw [fr2a, e1, fr2b, fr1b]
  · show region (copy_region initOk
        (copy_region initOk f rsi.fw_addr wsi.fw_addr rsi.fw_size).1
        rsi.fs_addr wsi.fs_addr rsi.fs_size).1 wsi.fs_addr rsi.fs_size =
      region (copy_region initOk
        (copy_region initOk f rsi.fw_addr wsi.fw_addr rsi.fw_size).1
        rsi.fs_addr wsi.fs_addr rsi.fs_size).1 rsi.fs_addr rsi.fs_size
    rw [e2, fr1c, fr2c, fr1c]
  · by_cases hid : wsi.id = 0 <;>
      simp [romsGet, setRoms, setRomsSizes, setFsAddresses, setFsSizes, hid]
  · by_cases hid : wsi.id = 0 <;>
      simp [romsSizesGet, setRoms, setRomsSizes, setFsAddresses, setFsSizes,
        hid]
  · by_cases hid : wsi.id = 0 <;>
      simp [fsAddressesGet, setRoms, setRomsSizes, setFsAddresses,
        setFsSizes, hid]
  · by_cases hid : wsi.id = 0 <;>
      simp [fsSizesGet, setRoms, setRomsSizes, setFsAddresses, setFsSizes,
        hid]
  · by_cases hid : wsi.id = 0 <;>
      simp [setRoms, setRomsSizes, setFsAddresses, setFsSizes, hid]

def flashSample : Flash := fun a => a % 251

def cfgSnap : rboot_config := ⟨0, 1, false, false, 0, 100, 300, 4, 7, 200, 400, 4, 9, 0⟩

def envSnap : BootEnv := ⟨cfgSnap, []⟩

def laySnap : FlashLayout := ⟨100, 200, 300, 400, 64, 64, 1000⟩

theorem C8_create_snapshot_witness :
    (mgos_upd_create_snapshot laySnap true true flashSample envSnap).2.2 =
      ((get_slot_info laySnap envSnap.cfg 1).id : Int) :=
  (C8_create_snapshot laySnap true true flashSample envSnap
    (get_slot_info laySnap envSnap.cfg 0) (get_slot_info laySnap envSnap.cfg 1)
    (by decide) (by decide) (by decide) (by decide) (by decide) (by decide)
    (by decide) (by decide)).1
